import Mathlib

/-!
Shallow embedding of the paired-image augmentation pipeline of this
repository: `data/base_dataset.py` (parameter sampling, transform
composition, crop/flip/rotate helpers, byte cache) and
`data/aligned_dataset.py` (dataset construction, pair splitting,
branch-parameter cloning).

Conventions of the embedding:
* Python `int` is `Int`; image dimensions are `Nat`; Python `float`
  values that only ever hold exact decimals or are compared with `<`
  are `ℚ` (the idealized draws of `random.random()` are a stream
  `u : ℕ → ℚ` consumed in call order).
* `random.randint(lo, hi)` is modelled by `randint lo hi e`, which maps
  an arbitrary entropy value `e : ℕ` into the inclusive range
  `[lo, hi]`; `random.shuffle` of the two-element blur list is modelled
  by a single boolean `shuf` (`true` = order swapped).
* A composed `torchvision` transform is modelled as the `List Transform`
  of the operations appended to `transform_list`, in order; the
  interpolation-method argument of `get_transform` is omitted since it
  only selects a resampling filter inside the resize operations.
* PIL images are `Img`: a width, a height and a pixel map; `Image.crop`
  pads out-of-bounds regions with value 0, as PIL does.
-/

namespace PairedAug

/-- The configuration object `opt`, restricted to the fields that
`aligned_dataset.py` and `base_dataset.py` actually consult. -/
structure Opt where
  preprocess : String
  load_size : Int
  crop_size : Int
  no_flip : Bool
  flip_x : Bool
  rotate : Int
  direction : String
  input_nc : Int
  output_nc : Int
  repeat_dataset_count : Int
  cache_num : Int
  agument_grayscale_A : ℚ
  agument_grayscale_B : ℚ
  agument_blur_A : ℚ
  agument_blur_B : ℚ
  agument_distort_A : ℚ
  agument_distort_B : ℚ
  agument_whiteBK_A : ℚ
deriving Repr

/-- The dict returned by `get_params`: shared geometry for one index. -/
structure GeometryParams where
  crop_pos : Int × Int
  flip : Bool
  flip_x : Bool
  rotate : Int
deriving DecidableEq, Repr

/-- Model of `random.randint(lo, hi)` (inclusive on both ends): an
arbitrary entropy value `e` is reduced into the range `[lo, hi]`.
For `hi ≥ lo` the result always lies in that range. -/
def randint (lo hi : Int) (e : Nat) : Int :=
  lo + (e : Int) % (hi - lo + 1)

/-- Python `round()`: nearest integer, ties to even. -/
def pyRound (q : ℚ) : Int :=
  if q - ⌊q⌋ < 1/2 then ⌊q⌋
  else if (1:ℚ)/2 < q - ⌊q⌋ then ⌊q⌋ + 1
  else if ⌊q⌋ % 2 = 0 then ⌊q⌋ else ⌊q⌋ + 1

/-- Lines 75-87 of `base_dataset.py`: the resize target `(new_w, new_h)`
computed by `get_params` from the input size and the preprocess mode.
`//` of Python is floor division (`Int.fdiv`); the float `ratio` of the
`scale_short_and_crop` branch is modelled exactly on `ℚ`. -/
def newSize (opt : Opt) (w h : Nat) : Int × Int :=
  if opt.preprocess == "resize_and_crop" then
    (opt.load_size, opt.load_size)
  else if opt.preprocess == "scale_width_and_crop" then
    (opt.load_size, Int.fdiv (opt.load_size * (h : Int)) (w : Int))
  else if opt.preprocess == "scale_short_and_crop" then
    (pyRound ((w : ℚ) * ((opt.load_size : ℚ) / ((min h w : ℕ) : ℚ))),
     pyRound ((h : ℚ) * ((opt.load_size : ℚ) / ((min h w : ℕ) : ℚ))))
  else ((w : Int), (h : Int))

/-- `get_params(opt, size)` of `base_dataset.py`: draws the crop offset
inside `[0, max 0 (new_dim - crop_size)]`, two flip coins
(`random.random() > 0.5`) and a rotation in `[-rotate, rotate]`.
The five random draws are passed as explicit entropy arguments in call
order. -/
def get_params (opt : Opt) (w h : Nat) (ex ey : Nat) (uf ufx : ℚ) (er : Nat) :
    GeometryParams :=
  let nwh := newSize opt w h
  let x := randint 0 (max 0 (nwh.1 - opt.crop_size)) ex
  let y := randint 0 (max 0 (nwh.2 - opt.crop_size)) ey
  { crop_pos := (x, y)
    flip := decide ((1:ℚ)/2 < uf)
    flip_x := decide ((1:ℚ)/2 < ufx)
    rotate := randint (-opt.rotate) opt.rotate er }

theorem randint_mem (lo hi : Int) (e : Nat) (h : lo ≤ hi) :
    lo ≤ randint lo hi e ∧ randint lo hi e ≤ hi := by
  have hpos : 0 < hi - lo + 1 := by omega
  have h0 : 0 ≤ (e : Int) % (hi - lo + 1) :=
    Int.emod_nonneg _ (by omega)
  have h1 : (e : Int) % (hi - lo + 1) < hi - lo + 1 :=
    Int.emod_lt_of_pos _ hpos
  unfold randint
  omega

/-- C6: the crop offset drawn by `get_params` lies within
`[0, max 0 (new_w - crop_size)]` horizontally and
`[0, max 0 (new_h - crop_size)]` vertically, where `(new_w, new_h)` is
the resize target computed for the configured preprocessing mode. -/
theorem crop_offset_in_bounds (opt : Opt) (w h : Nat) (ex ey : Nat)
    (uf ufx : ℚ) (er : Nat) (hw : 0 < w) (hh : 0 < h) :
    0 ≤ (get_params opt w h ex ey uf ufx er).crop_pos.1 ∧
    (get_params opt w h ex ey uf ufx er).crop_pos.1
      ≤ max 0 ((newSize opt w h).1 - opt.crop_size) ∧
    0 ≤ (get_params opt w h ex ey uf ufx er).crop_pos.2 ∧
    (get_params opt w h ex ey uf ufx er).crop_pos.2
      ≤ max 0 ((newSize opt w h).2 - opt.crop_size) := by
  have hx := randint_mem 0 (max 0 ((newSize opt w h).1 - opt.crop_size)) ex
    (le_max_left _ _)
  have hy := randint_mem 0 (max 0 ((newSize opt w h).2 - opt.crop_size)) ey
    (le_max_left _ _)
  exact ⟨hx.1, hx.2, hy.1, hy.2⟩

/-- The flat `params` dict handed to `get_transform` by
`AlignedDataset.__getitem__`: the geometry keys of `get_params` plus the
branch flags added afterwards.  `whiteBK` is `Option Bool` because only
the target branch's dict ever receives that key. -/
structure TransformParams where
  crop_pos : Int × Int
  flip : Bool
  flip_x : Bool
  rotate : Int
  grayscale : Bool
  blur : Bool
  distort : Bool
  whiteBK : Option Bool
deriving DecidableEq, Repr

/-- Projection of the shared-geometry keys out of a branch dict. -/
def TransformParams.geom (p : TransformParams) : GeometryParams :=
  ⟨p.crop_pos, p.flip, p.flip_x, p.rotate⟩

/-- Building a branch dict: clone of the geometry keys plus the
branch-specific flags added by `__getitem__` (lines 66-72). -/
def addBranchFlags (g : GeometryParams) (gray bl dist : Bool)
    (wb : Option Bool) : TransformParams :=
  ⟨g.crop_pos, g.flip, g.flip_x, g.rotate, gray, bl, dist, wb⟩

/-- One element of the composed `torchvision.transforms.Compose` list:
each constructor records one operation appended to `transform_list` in
`get_transform`, with the parameters it closes over. -/
inductive Transform where
  | grayscaleT (channels : Nat)
  | rotateT (angle : Int)
  | resizeSquare (size : Int)
  | scaleWidth (loadSize cropSize : Int)
  | scaleShort (loadSize : Int)
  | randomCrop (size : Int)
  | cropAt (pos : Int × Int) (size : Int)
  | makePower2
  | randomHFlip
  | flipH
  | flipV
  | gaussianBlur (radius : Nat)
  | medianBlur (size : Nat)
  | brightnessT (lo hi : ℚ)
  | contrastT (lo hi : ℚ)
  | saturationT (lo hi : ℚ)
  | hueT (lo hi : ℚ)
  | sharpnessT (lo hi : ℚ)
  | toTensor
  | normalizeT (means stds : List ℚ)
deriving DecidableEq, Repr

/-- Does the pattern occur as a leading slice of the character list. -/
def charsHaveStart (pat : List Char) : List Char → Bool
  | [] => pat.isEmpty
  | c :: cs => (pat == (c :: cs).take pat.length) || charsHaveStart pat cs

/-- Python `sub in s` on strings: substring containment. -/
def strContains (s sub : String) : Bool :=
  charsHaveStart sub.data s.data

/-- Numeric value of a Python `bool` when it is compared against a
float: `True` is `1`, `False` is `0`. -/
def pyBoolVal (b : Bool) : ℚ := if b then 1 else 0

/-- The five photometric helper functions of `base_dataset.py` as
first-class Python function objects, as they are stored under the key
`"f"` of the `fs` table in the distort block of `get_transform`. -/
inductive PyFunc where
  | brightness
  | contrast
  | saturation
  | hue
  | sharpness
deriving DecidableEq, Repr

/-- Python `==` between a function object and a `str`: neither type's
`__eq__` recognises the other, so comparison falls back to identity and
is always `False`. -/
def pyFuncEqStr (_f : PyFunc) (_s : String) : Bool := false

/-- The `fs` table of the distort block (lines 142-147): insertion order
brightness, contrast, saturation, hue, sharpness, each holding the
function object and the range `0.1`. -/
def fsTable : List (String × PyFunc × ℚ) :=
  [("brightness", PyFunc.brightness, 1/10),
   ("contrast", PyFunc.contrast, 1/10),
   ("saturation", PyFunc.saturation, 1/10),
   ("hue", PyFunc.hue, 1/10),
   ("sharpness", PyFunc.sharpness, 1/10)]

/-- The `for k in fs` loop of the distort block (lines 148-162): one
`random.random()` draw per key (at stream positions `start`,
`start+1`, ...), compared against the dict's `distort` value; on
success the `if fn == 'brightness': ... elif ...` chain dispatches on
the *function object* `fn = v['f']` compared against string literals,
and falls through with no append when no arm matches. -/
def distortLoop (u : ℕ → ℚ) (dflag : Bool) (start i : ℕ) :
    List (String × PyFunc × ℚ) → List Transform
  | [] => []
  | (_, fn, r) :: rest =>
    (if u (start + i) < pyBoolVal dflag then
      (if pyFuncEqStr fn "brightness" then
        [Transform.brightnessT (1 - r) (1 + r)]
      else if pyFuncEqStr fn "contrast" then
        [Transform.contrastT (1 - r) (1 + r)]
      else if pyFuncEqStr fn "saturation" then
        [Transform.saturationT (1 - r) (1 + r)]
      else if pyFuncEqStr fn "hue" then
        [Transform.hueT (1 - r) (1 + r)]
      else if pyFuncEqStr fn "sharpness" then
        [Transform.sharpnessT (1 - r) (1 + r)]
      else [])
     else []) ++ distortLoop u dflag start (i + 1) rest

/-- `get_transform(opt, params, grayscale, method, convert)` of
`base_dataset.py` (lines 100-171), as the list of operations appended to
`transform_list`, in order.  `u` is the stream of `random.random()`
results drawn inside this call (the blur gate first when the blur flag
is truthy, then one draw per distort key); `shuf` is the outcome of
`random.shuffle` on the two-element blur name list (`true` = swapped).
The dict reads `params['rotate']`, `params['flip']`, `params['flip_x']`,
`params['crop_pos']`, `params.get('blur', 0.0)`,
`params.get('distort', 0.0)` and `params.get('grayscale', False)` are
field projections; `params['whiteBK']` is never read. -/
def getTransform (opt : Opt) (params : Option TransformParams)
    (grayscale : Bool) (u : ℕ → ℚ) (shuf : Bool) (convert : Bool) :
    List Transform :=
  let grayBlock := if grayscale then [Transform.grayscaleT 1] else []
  let rotateBlock := match params with
    | some p => if p.rotate ≠ 0 then [Transform.rotateT p.rotate] else []
    | none => []
  let resizeBlock :=
    if strContains opt.preprocess "resize" then
      [Transform.resizeSquare opt.load_size]
    else if strContains opt.preprocess "scale_width" then
      [Transform.scaleWidth opt.load_size opt.crop_size]
    else if strContains opt.preprocess "scale_short" then
      [Transform.scaleShort opt.load_size]
    else []
  let cropBlock :=
    if strContains opt.preprocess "crop" then
      match params with
      | none => [Transform.randomCrop opt.crop_size]
      | some p => [Transform.cropAt p.crop_pos opt.crop_size]
    else []
  let powerBlock :=
    if opt.preprocess == "none" then [Transform.makePower2] else []
  let flipBlock :=
    if !opt.no_flip then
      match params with
      | none => [Transform.randomHFlip]
      | some p =>
        (if p.flip then [Transform.flipH] else []) ++
        (if opt.flip_x && p.flip_x then [Transform.flipV] else [])
    else []
  let blurBlock := match params with
    | some p =>
      if p.blur then
        if u 0 < pyBoolVal p.blur then
          (let blur_fn := if shuf then ["median_blur", "gaussian_blur"]
            else ["gaussian_blur", "median_blur"]
           if blur_fn.headD "" == "gaussian_blur" then
             [Transform.gaussianBlur 2]
           else [Transform.medianBlur 3])
        else []
      else []
    | none => []
  let distortBlock := match params with
    | some p =>
      if p.distort then
        distortLoop u p.distort (if p.blur then 1 else 0) 0 fsTable
      else []
    | none => []
  let grayscale3Block := match params with
    | some p =>
      if !grayscale && p.grayscale then [Transform.grayscaleT 3] else []
    | none => []
  let convertBlock :=
    if convert then
      Transform.toTensor ::
        (if grayscale then [Transform.normalizeT [1/2] [1/2]]
         else [Transform.normalizeT [1/2, 1/2, 1/2] [1/2, 1/2, 1/2]])
    else []
  grayBlock ++ rotateBlock ++ resizeBlock ++ cropBlock ++ powerBlock ++
    flipBlock ++ blurBlock ++ distortBlock ++ grayscale3Block ++
    convertBlock

/-- A concrete configuration in the style of the pix2pix defaults, used
to evaluate the embedded functions on concrete inputs. -/
def optEx : Opt :=
  { preprocess := "resize_and_crop", load_size := 286, crop_size := 256,
    no_flip := false, flip_x := false, rotate := 0, direction := "AtoB",
    input_nc := 3, output_nc := 3, repeat_dataset_count := 1,
    cache_num := 0, agument_grayscale_A := 0, agument_grayscale_B := 0,
    agument_blur_A := 1/2, agument_blur_B := 1/2, agument_distort_A := 1/2,
    agument_distort_B := 1/2, agument_whiteBK_A := 0 }

/-- Is this operation one of the two blurs. -/
def isBlurOp : Transform → Bool
  | .gaussianBlur _ => true
  | .medianBlur _ => true
  | _ => false

/-- Is this operation one of the five photometric distortions. -/
def isPhotometricOp : Transform → Bool
  | .brightnessT _ _ => true
  | .contrastT _ _ => true
  | .saturationT _ _ => true
  | .hueT _ _ => true
  | .sharpnessT _ _ => true
  | _ => false

theorem distortLoop_eq_nil (u : ℕ → ℚ) (d : Bool) (start : ℕ) :
    ∀ (l : List (String × PyFunc × ℚ)) (i : ℕ),
      distortLoop u d start i l = [] := by
  intro l
  induction l with
  | nil => intro i; rfl
  | cons hd tl ih =>
    intro i
    obtain ⟨k, fn, r⟩ := hd
    simp [distortLoop, pyFuncEqStr, ih]

/-- Witness for C6 at a concrete configuration and image size. -/
theorem crop_offset_in_bounds_witness :
    0 ≤ (get_params optEx 512 512 100 100 0 0 0).crop_pos.1 ∧
    (get_params optEx 512 512 100 100 0 0 0).crop_pos.1
      ≤ max 0 ((newSize optEx 512 512).1 - optEx.crop_size) := by
  have h := crop_offset_in_bounds optEx 512 512 100 100 0 0 0
    (by decide) (by decide)
  exact ⟨h.1, h.2.1⟩

/-- A branch dict with the blur flag set and every other augmentation
flag clear, as built by `__getitem__` for a branch whose blur coin
came up true. -/
def paramsBlurEx : TransformParams :=
  ⟨(0, 0), false, false, 0, false, true, false, none⟩

/-- A random stream whose every draw is 0.7. -/
def uEx : ℕ → ℚ := fun _ => 7/10

/-- C1, counterexample: with configured blur probability 1/2 and the
blur flag true, the in-pipeline draw is 0.7 — the claim predicts no
blur (0.7 is not below the configured probability), but the code
compares the draw against the flag's numeric value 1 and does apply a
blur, so the claimed equivalence is false. -/
theorem blur_not_gated_by_probability :
    ¬ (((getTransform optEx (some paramsBlurEx) false uEx false true).any
          isBlurOp = true)
        ↔ uEx 0 < optEx.agument_blur_A) := by
  have hu : uEx 0 < (1 : ℚ) := by norm_num [uEx]
  have hL : (getTransform optEx (some paramsBlurEx) false uEx false
      true).any isBlurOp = true := by
    simp [getTransform, optEx, paramsBlurEx, pyBoolVal, hu,
      distortLoop_eq_nil, isBlurOp, List.any_append]
  intro hiff
  have hR := hiff.mp hL
  rw [show optEx.agument_blur_A = 1/2 from rfl,
    show uEx 0 = 7/10 from rfl] at hR
  norm_num at hR

/-- C1, amended: when the branch's blur flag is true, the second
`random.random()` draw is compared against the flag itself (numeric
value 1), so for every draw in `[0, 1)` it succeeds and exactly one
blur is always included — Gaussian blur of radius 2 when the shuffle
keeps the list order, median blur of kernel size 3 when it swaps it. -/
theorem blur_single_gate (opt : Opt) (p : TransformParams) (g : Bool)
    (u : ℕ → ℚ) (shuf c : Bool) (hb : p.blur = true) (hu : u 0 < 1) :
    (getTransform opt (some p) g u shuf c).filter isBlurOp
      = [if shuf then Transform.medianBlur 3 else Transform.gaussianBlur 2] := by
  cases shuf <;>
    simp [getTransform, List.filter_append,
      apply_ite (List.filter isBlurOp), List.filter, isBlurOp, hb,
      pyBoolVal, hu, distortLoop_eq_nil, ite_self]

/-- Witness for C1's amended theorem at a concrete input. -/
theorem blur_single_gate_witness :
    (getTransform optEx (some paramsBlurEx) false uEx false true).filter
        isBlurOp = [Transform.gaussianBlur 2] := by
  simpa using blur_single_gate optEx paramsBlurEx false uEx false true
    rfl (by norm_num [uEx])

/-- C2: the distort block of `get_transform` never appends any
photometric operation: the dispatch compares the function object stored
under `"f"` with string literals, which is always false in Python, so
every arm of the `if/elif` chain falls through — for every
configuration, branch dict, and random stream the composed transform
contains no brightness/contrast/saturation/hue/sharpness operation. -/
theorem distort_applies_nothing (opt : Opt)
    (params : Option TransformParams) (g : Bool) (u : ℕ → ℚ)
    (s c : Bool) :
    (getTransform opt params g u s c).filter isPhotometricOp = [] := by
  cases params with
  | none =>
    simp [getTransform, List.filter_append,
      apply_ite (List.filter isPhotometricOp), List.filter,
      isPhotometricOp, ite_self]
  | some p =>
    simp [getTransform, List.filter_append,
      apply_ite (List.filter isPhotometricOp), List.filter,
      isPhotometricOp, distortLoop_eq_nil, ite_self]

/-- C5: `get_transform` never consults the `whiteBK` key — two branch
dicts that differ only in that field produce identical composed
transforms for every configuration, stream, and flag setting. -/
theorem whiteBK_not_consulted (opt : Opt) (cp : Int × Int) (f fx : Bool)
    (rot : Int) (gray bl dist : Bool) (wb1 wb2 : Option Bool) (g : Bool)
    (u : ℕ → ℚ) (s c : Bool) :
    getTransform opt (some ⟨cp, f, fx, rot, gray, bl, dist, wb1⟩) g u s c
      = getTransform opt (some ⟨cp, f, fx, rot, gray, bl, dist, wb2⟩) g u s c :=
  rfl

/-- A PIL image: a size and a pixel map.  Pixel values are abstracted
to `Nat`; coordinates outside `[0, w) × [0, h)` are irrelevant to the
claims below. -/
structure Img where
  w : Nat
  h : Nat
  pix : Int → Int → Nat

/-- `Image.crop((x1, y1, x2, y2))` of PIL: the result has size
`(x2 - x1, y2 - y1)` and any region of the box outside the source image
is filled with 0. -/
def Img.cropBox (img : Img) (x1 y1 x2 y2 : Int) : Img :=
  { w := (x2 - x1).toNat
    h := (y2 - y1).toNat
    pix := fun i j =>
      if 0 ≤ x1 + i ∧ x1 + i < (img.w : Int) ∧
         0 ≤ y1 + j ∧ y1 + j < (img.h : Int) then
        img.pix (x1 + i) (y1 + j)
      else 0 }

/-- `__crop(img, pos, size)` of `base_dataset.py` (lines 214-220): if
either dimension of the image exceeds the target, crop the full
`size × size` box at `pos`; otherwise return the image unchanged. -/
def cropT (img : Img) (pos : Int × Int) (size : Int) : Img :=
  if (img.w : Int) > size ∨ (img.h : Int) > size then
    img.cropBox pos.1 pos.2 (pos.1 + size) (pos.2 + size)
  else img

/-- Lines 51-54 of `aligned_dataset.py`: `w2 = int(w / 2)`,
`A = AB.crop((0, 0, w2, h))`, `B = AB.crop((w2, 0, w, h))`.
`int(w / 2)` equals floor division `w // 2` for every width a decoded
PIL image can have (far below 2^53, where float truediv is exact). -/
def splitAB (img : Img) : Img × Img :=
  let w2 : Int := (img.w : Int) / 2
  (img.cropBox 0 0 w2 (img.h : Int),
   img.cropBox w2 0 (img.w : Int) (img.h : Int))

/-- C7: splitting a combined image of width `w` and height `h` yields a
left image of width `w / 2` and a right image of width `w - w / 2`,
both of height `h`; the two widths always sum to `w`, with no
requirement that `w` be even. -/
theorem splitAB_sizes (img : Img) :
    (splitAB img).1.w = img.w / 2 ∧
    (splitAB img).2.w = img.w - img.w / 2 ∧
    (splitAB img).1.w + (splitAB img).2.w = img.w ∧
    (splitAB img).1.h = img.h ∧ (splitAB img).2.h = img.h := by
  simp only [splitAB, Img.cropBox]
  refine ⟨?_, ?_, ?_, ?_, ?_⟩ <;> omega

/-- An image of width 10 and height 5 with all pixels 0. -/
def imgEx : Img := ⟨10, 5, fun _ _ => 0⟩

/-- An image of width 3 and height 3 with all pixels 0. -/
def imgEx2 : Img := ⟨3, 3, fun _ _ => 0⟩

/-- C3, counterexample: on a 10 × 5 image with crop size 8, the width
exceeds the target, so `__crop` takes the full 8 × 8 box even though
the height 5 is smaller than the box — the crop is not skipped in the
small dimension, and the result (height 8) is larger than the input in
that dimension. -/
theorem crop_not_skipped_per_dimension :
    (cropT imgEx (0, 0) 8).h = 8 ∧ ¬ (cropT imgEx (0, 0) 8).h ≤ 5 := by
  constructor
  · rfl
  · intro hle
    have : (cropT imgEx (0, 0) 8).h = 8 := rfl
    omega

/-- C3, amended: `__crop` never errors; it returns the image unchanged
only when *both* dimensions are already at most `size` (in particular
an image at most `size × size` is untouched); as soon as either
dimension exceeds `size` it takes the full `size × size` box at the
offset, so a dimension smaller than the box is padded up to `size`
rather than skipped. -/
theorem crop_skip_only_when_both_small (img : Img) (pos : Int × Int)
    (size : Int) :
    ((img.w : Int) ≤ size ∧ (img.h : Int) ≤ size →
      cropT img pos size = img) ∧
    ((img.w : Int) > size ∨ (img.h : Int) > size →
      cropT img pos size
          = img.cropBox pos.1 pos.2 (pos.1 + size) (pos.2 + size) ∧
        (cropT img pos size).w = size.toNat ∧
        (cropT img pos size).h = size.toNat) := by
  constructor
  · intro hsmall
    have hcond : ¬ ((img.w : Int) > size ∨ (img.h : Int) > size) := by omega
    simp [cropT, hcond]
  · intro hbig
    have h1 : cropT img pos size
        = img.cropBox pos.1 pos.2 (pos.1 + size) (pos.2 + size) := by
      simp [cropT, hbig]
    refine ⟨h1, ?_, ?_⟩ <;> simp [h1, Img.cropBox, add_sub_cancel_left]

/-- Witness for C3's amended theorem: a 3 × 3 image is untouched by an
8-crop, and the 10 × 5 image is cropped to 8 × 8. -/
theorem crop_skip_only_when_both_small_witness :
    cropT imgEx2 (1, 1) 8 = imgEx2 ∧ (cropT imgEx (0, 0) 8).w = 8 := by
  constructor
  · exact (crop_skip_only_when_both_small imgEx2 (1, 1) 8).1
      (by constructor <;> decide)
  · exact ((crop_skip_only_when_both_small imgEx (0, 0) 8).2
      (by left; decide)).2.1

/-- The JSON values produced by `json.dumps` on the `get_params` dict:
ints, booleans, arrays and string-keyed objects. -/
inductive Json where
  | jnum : Int → Json
  | jbool : Bool → Json
  | jarr : List Json → Json
  | jobj : List (String × Json) → Json

/-- `json.dumps(transform_params_A)` restricted to the geometry keys:
the `crop_pos` tuple serializes as a JSON array, booleans and ints as
themselves. -/
def geomToJson (p : GeometryParams) : Json :=
  .jobj [("crop_pos", .jarr [.jnum p.crop_pos.1, .jnum p.crop_pos.2]),
         ("flip", .jbool p.flip),
         ("flip_x", .jbool p.flip_x),
         ("rotate", .jnum p.rotate)]

/-- `json.loads` of such an object, read back into geometry values (the
array parses back as a two-element sequence). -/
def geomOfJson : Json → Option GeometryParams
  | .jobj [("crop_pos", .jarr [.jnum x, .jnum y]),
           ("flip", .jbool f),
           ("flip_x", .jbool fx),
           ("rotate", .jnum r)] => some ⟨(x, y), f, fx, r⟩
  | _ => none

/-- C4: the `json.loads(json.dumps(...))` clone reproduces every
geometry value exactly, and the clone is by value: the two branch dicts
built from the shared geometry carry identical geometry regardless of
the branch-specific flags added to each, so setting one branch's flags
cannot alter the other branch's geometry. -/
theorem clone_geometry_identical (p : GeometryParams)
    (grayA blA distA grayB blB distB wbB : Bool) :
    geomOfJson (geomToJson p) = some p ∧
    (addBranchFlags p grayA blA distA none).geom = p ∧
    (addBranchFlags p grayB blB distB (some wbB)).geom = p ∧
    (addBranchFlags p grayA blA distA none).geom
      = (addBranchFlags p grayB blB distB (some wbB)).geom := by
  obtain ⟨⟨x, y⟩, f, fx, r⟩ := p
  exact ⟨rfl, rfl, rfl, rfl⟩

/-- Lines 27-30 of `aligned_dataset.py`: if `repeat_dataset_count > 1`,
take a copy of the path list and extend the list with the copy
`repeat_dataset_count - 1` times. -/
def repeatPaths (paths : List String) (count : Int) : List String :=
  if count > 1 then
    (List.range (count - 1).toNat).foldl (fun acc _ => acc ++ paths) paths
  else paths

theorem foldl_append_const (paths acc : List String) :
    ∀ n : Nat,
      (List.range n).foldl (fun a _ => a ++ paths) acc
        = acc ++ (List.replicate n paths).join := by
  intro n
  induction n generalizing acc with
  | zero => simp
  | succ m ih =>
    rw [List.range_succ, List.foldl_append, ih, List.replicate_succ']
    simp

/-- C8: for every path list and every repeat count `k ≥ 1`, the final
path list is the original list concatenated to itself `k` times, in
order, of length `n * k` — no shuffling, no interleaving. -/
theorem repeatPaths_concat (paths : List String) (count : Int)
    (hc : 1 ≤ count) :
    repeatPaths paths count = (List.replicate count.toNat paths).join ∧
    (repeatPaths paths count).length
      = paths.length * count.toNat := by
  have hmain : repeatPaths paths count
      = (List.replicate count.toNat paths).join := by
    unfold repeatPaths
    by_cases h : count > 1
    · rw [if_pos h, foldl_append_const]
      have hk : count.toNat = (count - 1).toNat + 1 := by omega
      rw [hk, List.replicate_succ]
      simp
    · have h1 : count = 1 := by omega
      subst h1
      simp
  refine ⟨hmain, ?_⟩
  rw [hmain]
  induction count.toNat with
  | zero => simp
  | succ m ih => simp [List.replicate_succ, ih]; ring

/-- Witness for C8: repeat count 3 on a five-element list yields the
fifteen-element triple concatenation. -/
theorem repeatPaths_concat_witness :
    repeatPaths ["a", "b", "c", "d", "e"] 3
        = (List.replicate (3 : Int).toNat ["a", "b", "c", "d", "e"]).join ∧
    (repeatPaths ["a", "b", "c", "d", "e"] 3).length
        = (["a", "b", "c", "d", "e"] : List String).length * (3 : Int).toNat :=
  repeatPaths_concat ["a", "b", "c", "d", "e"] 3 (by norm_num)

/-- The state built by `AlignedDataset.__init__`. -/
structure AlignedDataset where
  AB_paths : List String
  input_nc : Int
  output_nc : Int
deriving Repr

/-- `AlignedDataset.__init__` (lines 18-33 of `aligned_dataset.py`),
given the sorted file list produced by the `make_dataset` collaborator:
build the (optionally repeated) path list, then run the
`assert load_size >= crop_size` — a failing Python `assert` raises
`AssertionError`, modelled as the error branch — then resolve the
channel counts according to `direction`. -/
def alignedInit (opt : Opt) (sortedFiles : List String) :
    Except String AlignedDataset :=
  let paths := repeatPaths sortedFiles opt.repeat_dataset_count
  if opt.load_size ≥ opt.crop_size then
    .ok { AB_paths := paths
          input_nc := if opt.direction == "BtoA" then opt.output_nc
            else opt.input_nc
          output_nc := if opt.direction == "BtoA" then opt.input_nc
            else opt.output_nc }
  else .error "AssertionError"

/-- C9: construction fails (with the assertion error) exactly when
`load_size < crop_size`, before any sample is produced; when
`load_size ≥ crop_size` construction succeeds, so the precondition is
never reported at per-sample time. -/
theorem alignedInit_checks_sizes (opt : Opt) (files : List String) :
    (opt.load_size < opt.crop_size →
      alignedInit opt files = .error "AssertionError") ∧
    (opt.crop_size ≤ opt.load_size →
      ∃ d, alignedInit opt files = .ok d) := by
  constructor
  · intro hlt
    have h : ¬ (opt.load_size ≥ opt.crop_size) := by omega
    simp [alignedInit, h]
  · intro hge
    have h : opt.load_size ≥ opt.crop_size := hge
    unfold alignedInit
    rw [if_pos h]
    exact ⟨_, rfl⟩

/-- The configuration of C6's witness with `load_size` shrunk to 64 and
`crop_size` 128, violating the construction precondition. -/
def optBad : Opt := { optEx with load_size := 64, crop_size := 128 }

/-- Witness for C9: `load_size 64 < crop_size 128` aborts construction,
while the default-style configuration constructs successfully. -/
theorem alignedInit_checks_sizes_witness :
    alignedInit optBad [] = .error "AssertionError" ∧
    ∃ d, alignedInit optEx [] = .ok d :=
  ⟨(alignedInit_checks_sizes optBad []).1 (by norm_num [optBad, optEx]),
   (alignedInit_checks_sizes optEx []).2 (by norm_num [optEx])⟩

/-- `BaseDataset.get_cache_path` (lines 33-41 of `base_dataset.py`),
with the filesystem as a map from path to byte content and the
`self.cache` dict as an association list: return the cached bytes when
present; otherwise read the file and insert the bytes only when
`cache_num > len(cache)`. -/
def get_cache_path (fileBytes : String → List Nat) (cache_num : Int)
    (cache : List (String × List Nat)) (path : String) :
    List Nat × List (String × List Nat) :=
  match cache.lookup path with
  | some bts => (bts, cache)
  | none =>
    let bts := fileBytes path
    if cache_num > (cache.length : Int) then (bts, (path, bts) :: cache)
    else (bts, cache)

/-- C10: under the invariant `len(cache) ≤ max 0 cache_num`, a call to
`get_cache_path` returns the file's bytes (the cached value when the
path is present, the fresh read otherwise), inserts the read bytes
exactly when the path was absent and the cache was strictly below
`cache_num` (never evicting or replacing anything), and preserves the
invariant — so a cache that starts empty never exceeds
`max 0 cache_num` entries. -/
theorem cache_bounded (fileBytes : String → List Nat) (cache_num : Int)
    (cache : List (String × List Nat)) (path : String)
    (hinv : (cache.length : Int) ≤ max 0 cache_num) :
    (get_cache_path fileBytes cache_num cache path).1
        = (cache.lookup path).getD (fileBytes path) ∧
    (get_cache_path fileBytes cache_num cache path).2
        = (if cache.lookup path = none ∧
              cache_num > (cache.length : Int) then
            (path, fileBytes path) :: cache
          else cache) ∧
    ((get_cache_path fileBytes cache_num cache path).2.length : Int)
        ≤ max 0 cache_num := by
  unfold get_cache_path
  cases hlook : cache.lookup path with
  | some bts => simp [hlook, hinv]
  | none =>
    by_cases hroom : cache_num > (cache.length : Int)
    · have hmax : max 0 cache_num = cache_num := max_eq_right (by omega)
      refine ⟨by simp [hroom], by simp [hroom], ?_⟩
      simp only [hroom, if_true, List.length_cons]
      rw [hmax]
      push_cast
      omega
    · simp [hlook, hroom, hinv]

/-- Witness for C10: one call on an empty one-slot cache. -/
theorem cache_bounded_witness :
    (get_cache_path (fun _ => [7]) 1 [] "a").1
        = (([] : List (String × List Nat)).lookup "a").getD
            ((fun _ => [7]) "a") ∧
    (get_cache_path (fun _ => [7]) 1 [] "a").2
        = (if ([] : List (String × List Nat)).lookup "a" = none ∧
              (1 : Int) > (([] : List (String × List Nat)).length : Int) then
            ("a", (fun _ => [7]) "a") :: []
          else []) ∧
    (((get_cache_path (fun _ => [7]) 1 [] "a").2.length : Int))
        ≤ max 0 1 :=
  cache_bounded (fun _ => [7]) 1 [] "a" (by simp)

end PairedAug
